import Mathlib

/-
Verification development for the AromaTech scent-diffuser integration
(custom_components/aromatech).  The Python source is shallowly embedded:

* byte frames are `List Nat` (each entry one byte value);
* Python `str` values appearing in device state are represented by their
  byte sequences (`List Nat`); `bytes.decode("utf-8", errors="ignore")`
  is modelled as the identity on byte sequences (exact on the ASCII range,
  which covers every string the protocol produces), with
  `.rstrip("\x00")` / `.replace("\x00", "")` modelled on bytes directly;
* Python `int` is `Int` where negative values can flow in (intensities),
  `Nat` where the value comes from parsed bytes;
* Python `float` protocol versions are exact rationals `Rat`;
* `float` arithmetic in `OilInfo.percentage` is modelled as exact rational
  arithmetic with round-half-to-even, on both the code side and the spec
  side of the refinement;
* fallible operations return `Except`/`Bool`/`Option` values; the
  transport (bleak GATT client) is an oracle structure saying which of
  its operations succeed.

Sources embedded: custom_components/aromatech/coordinator.py (the
coordinator data model, data-burst codec, command paths, idle/reconnect
timers), custom_components/aromatech/core/client.py (write_command /
write_command_no_response) and custom_components/aromatech/core/device.py
(the pure login-response decoder).
-/

/-! ## Constants (core/const.py and coordinator.py module constants)

The response opcodes are the values documented inline in
coordinator.py `_parse_data_burst` (0x40 buffer clear, 0x46 limits,
0x42 name, 0x45 product name, 0x4A schedule V3, 0x43 device label,
0x47 intensity presets, 0x48 oil names, 0x4B oil amounts, 0x44 version,
0x4C identifier, 0x83 schedule V2, 0x91 oil V2). -/

def CMD_LOGIN : Nat := 0x8F

def CMD_SCHEDULE_WRITE_V2 : Nat := 0x03

def CMD_SCHEDULE_WRITE_V3 : Nat := 0x2A

def RESP_BUFFER_CLEAR : Nat := 0x40

def RESP_LIMITS_V3 : Nat := 0x46

def RESP_NAME_V3 : Nat := 0x42

def RESP_PRODUCT_NAME : Nat := 0x45

def RESP_SCHEDULE_V3 : Nat := 0x4A

def RESP_DEVICE_LABEL_V3 : Nat := 0x43

def RESP_INTENSITY_PRESETS : Nat := 0x47

def RESP_OIL_NAMES_V3 : Nat := 0x48

def RESP_OIL_AMOUNTS_V3 : Nat := 0x4B

def RESP_VERSION_V3 : Nat := 0x44

def RESP_IDENTIFIER : Nat := 0x4C

def RESP_SCHEDULE_V2 : Nat := 0x83

def RESP_OIL_V2 : Nat := 0x91

def PAIR_CODE : String := "OK01"

def DEFAULT_AROMA_SLOT : Nat := 1

def DEFAULT_INTENSITY : Int := 1

def DISCONNECT_DELAY_OFF : Nat := 30 * 60

def RECONNECT_MIN_INTERVAL : Nat := 5

def RECONNECT_MAX_INTERVAL : Nat := 60

def RECONNECT_MAX_ATTEMPTS : Nat := 10

/-! ## Byte and string helpers -/

/-- UTF-8 bytes of an ASCII string (used for the synthesized oil names,
which are ASCII). -/
def strBytes (s : String) : List Nat :=
  s.data.map Char.toNat

/-- Python `str.rstrip("\x00")` on the byte representation: drop trailing
zero bytes. -/
def rstrip0 (l : List Nat) : List Nat :=
  (l.reverse.dropWhile (· == 0)).reverse

/-! ## Python banker rounding on exact rationals

`round(x, 1)` in Python rounds to the nearest multiple of 1/10 with ties
going to the even multiple. -/

/-- Round a rational to the nearest integer, ties to even. -/
def roundHalfEven (x : Rat) : Int :=
  let fl := ⌊x⌋
  let frac := x - fl
  if frac < 1/2 then fl
  else if 1/2 < frac then fl + 1
  else if fl % 2 = 0 then fl else fl + 1

/-- Python `round(x, 1)` on exact rationals. -/
def pyRound1 (x : Rat) : Rat :=
  (roundHalfEven (x * 10) : Rat) / 10

/-! ## Data model (coordinator.py) -/

/-- OilInfo dataclass: oil/fragrance information for a single aroma slot. -/
structure OilInfo where
  name : List Nat := []
  total : Nat := 0
  remainder : Nat := 0
deriving Repr, DecidableEq

/-- OilInfo.percentage property: `0.0` when `total <= 0`, otherwise
`round((remainder / total) * 100, 1)`. -/
def OilInfo.percentage (o : OilInfo) : Rat :=
  if o.total ≤ 0 then 0
  else pyRound1 (((o.remainder : Rat) / (o.total : Rat)) * 100)

/-- Modelled from the spec: "Derived percentage = remaining/total x 100,
rounded to one decimal; 0 when total is 0 (avoids divide-by-zero)". -/
def specOilPercentage (total remainder : Nat) : Rat :=
  if total = 0 then 0
  else pyRound1 ((remainder : Rat) / (total : Rat) * 100)

/-- Schedule dataclass.  The source stores `repeat_days` as the 7-bit
binary string `format(byte, "07b")`; since that rendering is injective we
keep the raw byte. -/
structure Schedule where
  index : Nat := 1
  enabled : Bool := false
  hour_on : Nat := 0
  minute_on : Nat := 0
  hour_off : Nat := 0
  minute_off : Nat := 0
  repeat_days : Nat := 0
  intensity : Int := 1
  aroma : Nat := 1
  fan_enabled : Bool := true
  total_fan : Bool := false
  total_fog : Bool := false
deriving Repr, DecidableEq

/-- DeviceInfo: capabilities discovered during login (initial values from
`DeviceInfo.__init__`). -/
structure DeviceInfo where
  blue_version : Rat := 3
  hid_version : Bool := false
  oil : Bool := false
  battery : Bool := false
  custom : Bool := false
  many_aroma : Bool := false
  fan : Bool := false
  max_grade : Int := 5
  custom_on_min : Nat := 0
  custom_on_max : Nat := 0
  custom_off_min : Nat := 0
  custom_off_max : Nat := 0
deriving Repr, DecidableEq

/-- The freshly constructed DeviceInfo. -/
def DeviceInfo.init : DeviceInfo := {}

/-- DeviceState: current device operational state (initial values from
`DeviceState.__init__`). -/
structure DeviceState where
  is_on : Bool := false
  fan_on : Bool := false
  intensity : Int := DEFAULT_INTENSITY
  active_schedule : Nat := 0
  device_name : List Nat := []
  product_name : List Nat := []
  device_label : List Nat := []
  device_identifier : List Nat := []
  pcb_version : List Nat := []
  equipment_version : List Nat := []
  oils : List OilInfo := []
  battery_level : Nat := 0
  schedules : List Schedule := []
deriving Repr, DecidableEq

/-- The freshly constructed DeviceState. -/
def DeviceState.init : DeviceState := {}

/-- The `info`/`state` pair owned by AromaTechCoordinator. -/
structure Coordinator where
  info : DeviceInfo
  state : DeviceState
deriving Repr, DecidableEq

/-- Coordinator device data as set up in `__init__`. -/
def Coordinator.init : Coordinator :=
  { info := DeviceInfo.init, state := DeviceState.init }

/-! ## Data-burst codec (coordinator.py parse functions) -/

/-- `_parse_limits_response`: 0x46 device limits (max intensity and the
custom time limits, big-endian byte pairs). -/
def parse_limits_response (c : Coordinator) (data : List Nat) : Coordinator :=
  if 10 ≤ data.length ∧ data.getD 0 0 = RESP_LIMITS_V3 then
    { c with info := { c.info with
        max_grade := (data.getD 1 0 : Int)
        custom_on_min := (data.getD 2 0) <<< 8 + data.getD 3 0
        custom_on_max := (data.getD 4 0) <<< 8 + data.getD 5 0
        custom_off_min := (data.getD 6 0) <<< 8 + data.getD 7 0
        custom_off_max := (data.getD 8 0) <<< 8 + data.getD 9 0 } }
  else c

/-- The Schedule record built by `_parse_schedule_v3` from a 0x4A frame
(callers guarantee `data.length ≥ 14`): control byte 3 carries
totalFan/totalFog, control byte 6 carries fan/enabled. -/
def scheduleOfV3 (data : List Nat) : Schedule :=
  { aroma := data.getD 1 0
    index := data.getD 5 0
    hour_on := data.getD 7 0
    minute_on := data.getD 8 0
    hour_off := data.getD 9 0
    minute_off := data.getD 10 0
    repeat_days := data.getD 11 0
    intensity := if 13 < data.length then (data.getD 13 0 : Int) else 1
    total_fan := (data.getD 3 0).testBit 0
    total_fog := (data.getD 3 0).testBit 1
    fan_enabled := (data.getD 6 0).testBit 0
    enabled := (data.getD 6 0).testBit 1 }

/-- `_parse_schedule_v3`: parse a V3.0 schedule response (0x4A).  The
frame with slot index 1 (or the first schedule frame seen) also updates
the current power/fan/intensity/active-schedule state; every frame is
appended to the schedule list. -/
def parse_schedule_v3 (c : Coordinator) (data : List Nat) : Coordinator :=
  if data.length < 14 then c
  else
    let schedule := scheduleOfV3 data
    let st :=
      if schedule.index = 1 ∨ c.state.schedules = [] then
        { c.state with
            is_on := schedule.total_fog
            fan_on := schedule.total_fan
            intensity := schedule.intensity
            active_schedule := if 4 < data.length then data.getD 4 0 else 0 }
      else c.state
    { c with state := { st with schedules := st.schedules ++ [schedule] } }

/-- The Schedule record built by `_parse_schedule_v2` from a 0x83 frame:
control byte 1 packs enabled (bit 0) and a 4-bit index (bits 1-4). -/
def scheduleOfV2 (data : List Nat) : Schedule :=
  let control := data.getD 1 0
  { index := (control >>> 1) &&& 0x0F
    enabled := control.testBit 0
    hour_on := data.getD 2 0
    minute_on := data.getD 3 0
    hour_off := data.getD 4 0
    minute_off := data.getD 5 0
    repeat_days := data.getD 6 0
    intensity := (data.getD 7 0 : Int) }

/-- `_parse_schedule_v2`: parse a V2.0 schedule response (0x83).  Slot 1
also carries the power state, a lower-bounded intensity and (when the
frame is long enough) embedded oil and battery info; the hex slices
`[20:24]` / `[24:28]` of the source are the big-endian byte pairs at
offsets 10 and 12. -/
def parse_schedule_v2 (c : Coordinator) (data : List Nat) : Coordinator :=
  if data.length < 8 then c
  else
    let schedule := scheduleOfV2 data
    let st :=
      if schedule.index = 1 then
        let st := { c.state with
            is_on := schedule.enabled
            intensity := if 0 < schedule.intensity then schedule.intensity else 1 }
        if 14 < data.length then
          { st with
              oils := [{ name := strBytes "Oil 1"
                         total := (data.getD 12 0) * 256 + data.getD 13 0
                         remainder := (data.getD 10 0) * 256 + data.getD 11 0 }]
              battery_level := data.getD 14 0 }
        else st
      else c.state
    { c with state := { st with schedules := st.schedules ++ [schedule] } }

/-- One step of the `_parse_oil_names` loop: consume 16-byte fixed-width
records (the loop runs while `i + 16 <= len(data)`, i.e. while 16 bytes
remain); each name has its null bytes stripped, and a blank name is
replaced by the synthesized "Oil N" (N the 1-based position). -/
def parse_oil_names_list : List Nat → Nat → List (List Nat)
  | b0 :: b1 :: b2 :: b3 :: b4 :: b5 :: b6 :: b7 ::
    b8 :: b9 :: b10 :: b11 :: b12 :: b13 :: b14 :: b15 :: rest, count =>
    let nm := ([b0, b1, b2, b3, b4, b5, b6, b7,
                b8, b9, b10, b11, b12, b13, b14, b15]).filter (· != 0)
    (if nm = [] then strBytes ("Oil " ++ toString (count + 1)) else nm)
      :: parse_oil_names_list rest (count + 1)
  | _, _ => []

/-- `_parse_oil_names`: 0x48 frame, names start after the command byte. -/
def parse_oil_names (data : List Nat) : List (List Nat) :=
  parse_oil_names_list (data.drop 1) 0

/-- One step of the `_parse_oil_amounts` loop: the source walks the hex
string 8 hex digits (4 bytes) at a time reading a big-endian total and
remainder; the name is `oil_names[idx]` when present, otherwise the
synthesized "Oil idx+1". -/
def parse_oil_amounts_list : List Nat → Nat → List (List Nat) → List OilInfo
  | a :: b :: c :: d :: rest, idx, oil_names =>
    { name := oil_names.getD idx (strBytes ("Oil " ++ toString (idx + 1)))
      total := a * 256 + b
      remainder := c * 256 + d }
      :: parse_oil_amounts_list rest (idx + 1) oil_names
  | _, _, _ => []

/-- `_parse_oil_amounts`: 0x4B frame, battery byte at offset 1, then
(total, remainder) pairs from byte offset 2 (hex offset 4), appended to
the current oils list. -/
def parse_oil_amounts (c : Coordinator) (data : List Nat)
    (oil_names : List (List Nat)) : Coordinator :=
  if data.length < 4 then c
  else
    { c with state := { c.state with
        battery_level := data.getD 1 0
        oils := c.state.oils ++ parse_oil_amounts_list (data.drop 2) 0 oil_names } }

/-- `_parse_oil_v2`: 0x91 frame; hex slice `[2:6]` is the big-endian byte
pair at offset 1; V2.0 provides no total. -/
def parse_oil_v2 (c : Coordinator) (data : List Nat) : Coordinator :=
  if data.length < 4 then c
  else
    { c with state := { c.state with
        oils := [{ name := strBytes "Oil 1"
                   total := 0
                   remainder := (data.getD 1 0) * 256 + data.getD 2 0 }]
        battery_level := data.getD 3 0 } }

/-- One response of the `_parse_data_burst` loop: dispatch on the opcode
byte, carrying the running oil-names list used to correlate the 0x4B
amounts frame with the 0x48 names frame.  Unknown opcodes (and 0x40 /
0x47) are ignored. -/
def burstStep (acc : Coordinator × List (List Nat)) (data : List Nat) :
    Coordinator × List (List Nat) :=
  let (c, oil_names) := acc
  if data.length = 0 then acc
  else
    let cmd := data.getD 0 0
    if cmd = RESP_BUFFER_CLEAR then acc
    else if cmd = RESP_LIMITS_V3 then (parse_limits_response c data, oil_names)
    else if cmd = RESP_NAME_V3 then
      ({ c with state := { c.state with device_name := rstrip0 (data.drop 1) } },
       oil_names)
    else if cmd = RESP_PRODUCT_NAME then
      ({ c with state := { c.state with product_name := rstrip0 (data.drop 1) } },
       oil_names)
    else if cmd = RESP_SCHEDULE_V3 then (parse_schedule_v3 c data, oil_names)
    else if cmd = RESP_DEVICE_LABEL_V3 then
      ({ c with state := { c.state with device_label := rstrip0 (data.drop 1) } },
       oil_names)
    else if cmd = RESP_INTENSITY_PRESETS then acc
    else if cmd = RESP_OIL_NAMES_V3 then (c, parse_oil_names data)
    else if cmd = RESP_OIL_AMOUNTS_V3 then
      (parse_oil_amounts c data oil_names, oil_names)
    else if cmd = RESP_VERSION_V3 then
      (if 17 < data.length then
        { c with state := { c.state with
            pcb_version := rstrip0 ((data.drop 1).take 16)
            equipment_version := rstrip0 (data.drop 17) } }
       else c, oil_names)
    else if cmd = RESP_IDENTIFIER then
      ({ c with state := { c.state with device_identifier := rstrip0 (data.drop 1) } },
       oil_names)
    else if cmd = RESP_SCHEDULE_V2 then (parse_schedule_v2 c data, oil_names)
    else if cmd = RESP_OIL_V2 then (parse_oil_v2 c data, oil_names)
    else acc

/-- `_parse_data_burst`: reset the list fields (`reset_lists`) and decode
the buffered responses in arrival order. -/
def parse_data_burst (c : Coordinator) (responses : List (List Nat)) : Coordinator :=
  let c := { c with state := { c.state with oils := [], schedules := [] } }
  (responses.foldl burstStep (c, [])).1

/-! ## Login response decoder (core/device.py `Device._parse_login_response`)

The decoder builds a fresh DeviceInfo from the response frame.  Two
aspects are parameters of the embedding:

* `respStr` is the Python string `data[1:].decode("utf-8",
  errors="ignore")`; the decode is kept abstract by quantifying over the
  decoded string;
* `pf` is Python `float(...)` parsing restricted to 3-character
  substrings, `none` standing for `ValueError`. -/

def device_parse_login_response (pf : String → Option Rat) (data : List Nat)
    (respStr : String) : Nat × DeviceInfo :=
  if respStr = "ERROR" then (2, DeviceInfo.init)
  else
    let info :=
      if respStr.length ≤ 2 then
        { DeviceInfo.init with
            hid_version := true
            blue_version := 2
            many_aroma := false }
      else
        let v := (pf (String.mk ((respStr.data.drop 4).take 3))).getD 3
        let info := { DeviceInfo.init with blue_version := v }
        if v = 3 ∧ 13 < data.length then
          let feature_byte := data.getD 13 0
          { info with
              oil := feature_byte.testBit 0
              battery := feature_byte.testBit 1
              custom := feature_byte.testBit 2
              many_aroma := feature_byte.testBit 3
              fan := feature_byte.testBit 4 }
        else info
    let login_state :=
      if 9 ≤ respStr.length then
        if String.mk ((respStr.data.drop 7).take 2)
            = String.mk (PAIR_CODE.data.take 2) then 0 else 1
      else 0
    (login_state, info)

/-! ## Transport (core/client.py and coordinator.py write helpers)

A `Link` is the oracle for one command exchange over the GATT client:
whether a client object is present and connected, whether
`write_gatt_char` completes without raising, and whether a notification
arrives before the response timeout (`none` = `asyncio.TimeoutError`). -/

structure Link where
  connected : Bool
  writeOk : Bool
  response : Option (List Nat)
deriving Repr, DecidableEq

/-- `write_command` (client.py; `_async_write_command` in coordinator.py
has the same structure): empty bytes when not connected, when the GATT
write raises, or when the wait times out; the notification payload
otherwise.  No failure escapes as an exception, which the embedding
states by the plain (non-`Except`) result type. -/
def write_command (lk : Link) : List Nat :=
  if !lk.connected then []
  else if !lk.writeOk then []
  else
    match lk.response with
    | none => []
    | some r => r

/-- `write_command_no_response` (client.py; `_async_write_command_no_response`
in coordinator.py): False when not connected or when the GATT write
raises, True otherwise. -/
def write_command_no_response (lk : Link) : Bool :=
  if !lk.connected then false
  else lk.writeOk

/-! ## Session model (coordinator.py connection lifecycle)

`Session` carries the coordinator data plus the connection flags and the
idle-disconnect timer handle; `LinkEnv` is the oracle for one
`ensureConnected` round: whether `establish_connection`/`start_notify`
succeed, whether the login handshake succeeds (response present, opcode
matches, pair-code echo accepted), the post-login data burst the device
streams, and the `Link` used for command writes afterwards. -/

structure Session where
  coord : Coordinator
  connected : Bool
  loggedIn : Bool
  timerArmed : Bool
deriving Repr, DecidableEq

structure LinkEnv where
  connectOk : Bool
  loginOk : Bool
  burst : List (List Nat)
  gatt : Link
deriving Repr, DecidableEq

/-- `_async_disconnect_internal`: clears the login flag and drops the
client. -/
def disconnect_internal (s : Session) : Session :=
  { s with loggedIn := false, connected := false }

/-- `_schedule_disconnect`: cancel any pending disconnect timer; arm a
fresh 30-minute timer only when the device is OFF (an ON device keeps
the connection alive with no timer at all). -/
def schedule_disconnect (s : Session) : Session :=
  let s := { s with timerArmed := false }
  if s.coord.state.is_on then s
  else { s with timerArmed := true }

/-- `_async_disconnect_if_idle` (the idle-timer callback): re-checks
under the connection lock that the device is still OFF before forcing
the disconnect; a device that turned ON in the meantime wins the race. -/
def disconnect_if_idle (s : Session) : Session :=
  if s.coord.state.is_on then s
  else if s.connected then disconnect_internal s
  else s

/-- `_async_ensure_connected`: cancel the disconnect timer; no-op when
already connected and logged in; otherwise connect (a
BleakError/TimeoutError forces `disconnect_internal` and False) and log
in (`_async_login`, whose success also parses the post-login data burst
and whose failure forces `disconnect_internal`). -/
def ensure_connected (env : LinkEnv) (s : Session) : Bool × Session :=
  let s := { s with timerArmed := false }
  if s.connected && s.loggedIn then (true, s)
  else if !s.connected && !env.connectOk then (false, disconnect_internal s)
  else
    let s := { s with connected := true, loggedIn := false }
    if env.loginOk then
      (true, { s with
          loggedIn := true
          coord := parse_data_burst s.coord env.burst })
    else (false, disconnect_internal s)

/-- `async_execute_command`: ensure a connection, raise
`UpdateFailed("Failed to connect to device")` when that fails, otherwise
run the command body and (in the `finally` block) re-arm the
idle-disconnect timer. -/
def execute_command (env : LinkEnv) (s : Session)
    (body : Coordinator → Coordinator) : Except String Unit × Session :=
  let r := ensure_connected env s
  if r.1 then
    (Except.ok (), schedule_disconnect { r.2 with coord := body r.2.coord })
  else (Except.error "Failed to connect to device", r.2)

/-- Python `max(1, min(intensity, max_grade))`. -/
def clampIntensity (max_grade intensity : Int) : Int :=
  max 1 (min intensity max_grade)

/-- The `_power_on` body: sends the V3 quick-power frame plus the V3
intensity schedule frame (or the V2 all-day schedule frame); the source
discards every write result, so the state update is unconditional. -/
def power_on_body (env : LinkEnv) (intensity : Int) (c : Coordinator) : Coordinator :=
  let _writes :=
    if (3 : Rat) ≤ c.info.blue_version then
      (write_command_no_response env.gatt, write_command env.gatt)
    else (true, write_command env.gatt)
  { c with state := { c.state with is_on := true, intensity := intensity } }

/-- `async_power_on`: default the intensity to the stored one (or
DEFAULT_INTENSITY when that is the falsy 0), clamp it against
`info.max_grade` at call time, then run the body through
`async_execute_command`. -/
def async_power_on (env : LinkEnv) (s : Session) (intensity? : Option Int) :
    Except String Unit × Session :=
  let i0 :=
    match intensity? with
    | some i => i
    | none =>
      if s.coord.state.intensity = 0 then DEFAULT_INTENSITY
      else s.coord.state.intensity
  let intensity := clampIntensity s.coord.info.max_grade i0
  execute_command env s (power_on_body env intensity)

/-- The `_power_off` body: sends the V3 quick-power-off frame (or the
five V2 schedule-disable frames); write results are discarded. -/
def power_off_body (env : LinkEnv) (c : Coordinator) : Coordinator :=
  let _writes :=
    if (3 : Rat) ≤ c.info.blue_version then write_command_no_response env.gatt
    else write_command env.gatt ≠ []
  { c with state := { c.state with is_on := false } }

/-- `async_power_off`. -/
def async_power_off (env : LinkEnv) (s : Session) : Except String Unit × Session :=
  execute_command env s (power_off_body env)

/-- The `_set_intensity` body: sends the V3 intensity schedule frame (or
the V2 all-day schedule frame); the write result is discarded. -/
def set_intensity_body (env : LinkEnv) (intensity : Int) (c : Coordinator) :
    Coordinator :=
  let _write := write_command env.gatt
  { c with state := { c.state with intensity := intensity } }

/-- `async_set_intensity`: clamp against `info.max_grade` at call time,
then run the body through `async_execute_command`. -/
def async_set_intensity (env : LinkEnv) (s : Session) (intensity : Int) :
    Except String Unit × Session :=
  let intensity := clampIntensity s.coord.info.max_grade intensity
  execute_command env s (set_intensity_body env intensity)

/-- `set_intensity_local`: clamp and store without any device write. -/
def set_intensity_local (c : Coordinator) (intensity : Int) : Coordinator :=
  { c with state := { c.state with
      intensity := clampIntensity c.info.max_grade intensity } }

/-! ## Reconnect loop (coordinator.py `_async_reconnect_loop`)

The loop body observes the mutable flags at two points per iteration
(the while-loop head, and again after the backoff sleep) and then tries
`_async_ensure_connected` under the connection lock.  That call has
three outcomes relevant to the loop:

* it returns True: the loop zeroes `_reconnect_attempts` and returns;
* it fails before the transport connection is (re-)established
  (`establish_connection`/`start_notify` fail or raise, whether the
  exception is swallowed inside `_async_ensure_connected` or by the
  loop's own `except`): the attempt counter keeps its value and the
  loop continues with the next backoff delay;
* the transport connect succeeds — at which point
  `_async_ensure_connected` resets `_reconnect_attempts` to 0 ("Reset
  reconnect counter on successful connection") — but the subsequent
  login is rejected and False is returned: the loop continues with the
  counter already back at 0.

`ReconnectStep` packs one iteration's observations; the environment maps
the global iteration number to them.  Because the counter can be reset,
the loop need not terminate, so it is unrolled for an explicit fuel
budget of iterations; the returned flag records whether the loop
actually exited within the budget. -/

inductive AttemptOutcome where
  /-- `_async_ensure_connected` returned True. -/
  | success
  /-- Failure (or exception) before the transport connect succeeded:
  the attempt counter is untouched. -/
  | failNoConn
  /-- Transport connect succeeded, so `_reconnect_attempts` was reset
  to 0, but the login was then rejected and False returned. -/
  | failAfterConn
deriving Repr, DecidableEq

structure ReconnectStep where
  isOnHead : Bool
  shutHead : Bool
  isOnAfter : Bool
  shutAfter : Bool
  outcome : AttemptOutcome
deriving Repr, DecidableEq

/-- The reconnect loop, unrolled for `fuel` iterations of the `while`
loop: arguments are the iteration number, the current
`_reconnect_attempts` value and the delays slept so far; the result is
the delay list together with `true` when the loop exited (head
condition false, break, or successful return) and `false` when the fuel
ran out with the loop still live. -/
def reconnect_loop_aux (env : Nat → ReconnectStep) :
    Nat → Nat → Nat → List Nat → List Nat × Bool
  | 0, _, _, acc => (acc, false)
  | fuel + 1, iter, attempts, acc =>
    let step := env iter
    if step.isOnHead = true ∧ step.shutHead = false
        ∧ attempts < RECONNECT_MAX_ATTEMPTS then
      let attempts' := attempts + 1
      let delay :=
        min (RECONNECT_MIN_INTERVAL * 2 ^ (attempts' - 1)) RECONNECT_MAX_INTERVAL
      let acc' := acc ++ [delay]
      if !step.isOnAfter || step.shutAfter then (acc', true)
      else
        match step.outcome with
        | .success => (acc', true)
        | .failNoConn => reconnect_loop_aux env fuel (iter + 1) attempts' acc'
        | .failAfterConn => reconnect_loop_aux env fuel (iter + 1) 0 acc'
    else (acc, true)

/-- The delays slept by one run of `_async_reconnect_loop`, observed for
the first `fuel` loop iterations, with the loop-exited flag. -/
def reconnectTrace (env : Nat → ReconnectStep) (fuel : Nat) : List Nat × Bool :=
  reconnect_loop_aux env fuel 0 0 []

/-- The full backoff table claimed by the spec. -/
def backoffTable : List Nat := [5, 10, 20, 40, 60, 60, 60, 60, 60, 60]

/-! ## Concrete scenarios used by witnesses and counterexamples -/

/-- A session that is already connected and logged in. -/
def readySession : Session :=
  { coord := Coordinator.init, connected := true, loggedIn := true,
    timerArmed := false }

/-- A session with no client at all. -/
def offlineSession : Session :=
  { coord := Coordinator.init, connected := false, loggedIn := false,
    timerArmed := false }

/-- A fully healthy link environment. -/
def envOK : LinkEnv :=
  { connectOk := true, loginOk := true, burst := [],
    gatt := { connected := true, writeOk := true, response := some [0x4A] } }

/-- Transport connect and login succeed but every GATT command write
raises. -/
def envWriteFail : LinkEnv :=
  { connectOk := true, loginOk := true, burst := [],
    gatt := { connected := true, writeOk := false, response := none } }

/-- Transport connect fails. -/
def envConnFail : LinkEnv :=
  { connectOk := false, loginOk := true, burst := [],
    gatt := { connected := false, writeOk := true, response := none } }

/-- Transport connect succeeds but the login handshake is rejected. -/
def envLoginFail : LinkEnv :=
  { connectOk := true, loginOk := false, burst := [],
    gatt := { connected := true, writeOk := true, response := none } }

/-- A 14-byte V3 schedule frame for slot index 1 whose intensity byte
(byte 13) is 0. -/
def c1_frame : List Nat := [0x4A, 1, 0, 0x03, 0, 1, 0x03, 0, 0, 23, 59, 0x7F, 0, 0]

/-- A V3 schedule frame for index 1: total control 0x03, active slot
byte 2, intensity 4. -/
def c4_frame1 : List Nat := [0x4A, 1, 0, 0x03, 2, 1, 0x03, 6, 30, 8, 0, 0x7F, 0, 4]

/-- The coordinator after decoding `c4_frame1`. -/
def c4_coord1 : Coordinator := parse_schedule_v3 Coordinator.init c4_frame1

/-- A V3 schedule frame for index 2 (not 1), intensity 9. -/
def c4_frame2 : List Nat := [0x4A, 1, 0, 0x00, 0, 2, 0x02, 7, 0, 9, 0, 0x00, 0, 9]

/-- A V3 schedule frame for index 2, intensity 7 (not an oil frame). -/
def c7_frame1 : List Nat := [0x4A, 1, 0, 0x03, 0, 2, 0x03, 0, 0, 23, 59, 0x7F, 0, 7]

/-- A V3 schedule frame for index 3, intensity 9 (not an oil frame). -/
def c7_frame2 : List Nat := [0x4A, 1, 0, 0x03, 0, 3, 0x03, 0, 0, 23, 59, 0x7F, 0, 9]

/-- A session that is connected, logged in and OFF (the idle timer may
be armed). -/
def c8_start : Session :=
  { coord := Coordinator.init, connected := true, loggedIn := true,
    timerArmed := false }

/-- `c8_start` after `_schedule_disconnect` armed the 30-minute idle
timer (the device is OFF). -/
def c8_armed : Session := schedule_disconnect c8_start

/-- `c8_armed` after a power-on command ran between the arming and the
firing of the idle timer. -/
def c8_fired_late : Session := (async_power_on envOK c8_armed (some 2)).2

/-- A reconnect environment where the device stays ON, nothing shuts
down, and every attempt establishes the transport connection (resetting
the attempt counter) but is then rejected at login. -/
def loginBounceEnv : Nat → ReconnectStep := fun _ =>
  { isOnHead := true, shutHead := false, isOnAfter := true,
    shutAfter := false, outcome := AttemptOutcome.failAfterConn }

/-- A reconnect environment where the device stays ON, nothing shuts
down, and every attempt fails before the transport connection is
established (the counter is never reset). -/
def connFailEnv : Nat → ReconnectStep := fun _ =>
  { isOnHead := true, shutHead := false, isOnAfter := true,
    shutAfter := false, outcome := AttemptOutcome.failNoConn }

/-! ## Helper lemmas -/

/-- Clamping lands in `[1, max_grade]` whenever `max_grade ≥ 1`. -/
lemma clamp_bounds (g i : Int) (h : 1 ≤ g) :
    1 ≤ clampIntensity g i ∧ clampIntensity g i ≤ g := by
  unfold clampIntensity
  constructor
  · exact le_max_left _ _
  · exact max_le h (min_le_right _ _)

/-- `_schedule_disconnect` only touches the timer handle. -/
lemma schedule_disconnect_coord (s : Session) :
    (schedule_disconnect s).coord = s.coord := by
  unfold schedule_disconnect
  dsimp only
  split <;> rfl

/-- When `async_execute_command` succeeds, the resulting coordinator
data is the body applied to the post-`ensureConnected` data. -/
lemma execute_command_ok (env : LinkEnv) (s : Session)
    (body : Coordinator → Coordinator)
    (h : (execute_command env s body).1 = Except.ok ()) :
    (execute_command env s body).2.coord
      = body (ensure_connected env s).2.coord := by
  unfold execute_command at h ⊢
  by_cases hr : (ensure_connected env s).1
  · simp only [hr, if_true]
    rw [schedule_disconnect_coord]
  · simp [hr] at h

/-! ## Claim theorems -/

/-- C9: for all non-negative integers `total` and `remainder`, the
derived oil percentage equals `round(remainder/total*100, 1)` when
`total > 0` and is exactly `0` when `total = 0`; equivalently the code
percentage refines the formula modelled from the spec. -/
theorem oil_percentage_spec (o : OilInfo) :
    o.percentage = specOilPercentage o.total o.remainder ∧
    (o.total = 0 → o.percentage = 0) ∧
    (0 < o.total →
      o.percentage = pyRound1 ((o.remainder : Rat) / (o.total : Rat) * 100)) := by
  refine ⟨?_, ?_, ?_⟩
  · unfold OilInfo.percentage specOilPercentage
    simp [Nat.le_zero]
  · intro h
    unfold OilInfo.percentage
    simp [h]
  · intro h
    unfold OilInfo.percentage
    rw [if_neg (by omega)]

/-- C9 witness: a positive-total and a zero-total evaluation. -/
theorem oil_percentage_spec_witness :
    OilInfo.percentage { name := [], total := 4, remainder := 1 }
      = pyRound1 (((1 : Nat) : Rat) / ((4 : Nat) : Rat) * 100) ∧
    OilInfo.percentage { name := [], total := 0, remainder := 7 } = 0 :=
  ⟨(oil_percentage_spec { name := [], total := 4, remainder := 1 }).2.2 (by decide),
   (oil_percentage_spec { name := [], total := 0, remainder := 7 }).2.1 rfl⟩

/-- C10: the low-level write operations are total at their interface:
`write_command` returns empty bytes when no client is connected, when
the GATT write raises, or when the response wait times out (and the
notification payload otherwise); `write_command_no_response` returns
False in the first two cases.  Exceptions never propagate, which the
embedding states by the plain result types. -/
theorem write_command_total (lk : Link) :
    (lk.connected = false →
      write_command lk = [] ∧ write_command_no_response lk = false) ∧
    (lk.writeOk = false →
      write_command lk = [] ∧ write_command_no_response lk = false) ∧
    (lk.response = none → write_command lk = []) ∧
    (∀ r, lk.response = some r → lk.connected = true → lk.writeOk = true →
      write_command lk = r) := by
  rcases lk with ⟨c, w, resp⟩
  refine ⟨fun h => ?_, fun h => ?_, fun h => ?_, fun r hr hc hw => ?_⟩
  · subst h; simp [write_command, write_command_no_response]
  · subst h; cases c <;> simp [write_command, write_command_no_response]
  · subst h; cases c <;> cases w <;> simp [write_command]
  · subst hr; subst hc; subst hw; simp [write_command]

/-- C10 witness: the three failure shapes and one success. -/
theorem write_command_total_witness :
    write_command { connected := false, writeOk := true, response := some [1] } = [] ∧
    write_command { connected := true, writeOk := false, response := some [1] } = [] ∧
    write_command { connected := true, writeOk := true, response := none } = [] ∧
    write_command { connected := true, writeOk := true, response := some [7] } = [7] :=
  ⟨((write_command_total ⟨false, true, some [1]⟩).1 rfl).1,
   ((write_command_total ⟨true, false, some [1]⟩).2.1 rfl).1,
   (write_command_total ⟨true, true, none⟩).2.2.1 rfl,
   (write_command_total ⟨true, true, some [7]⟩).2.2.2 [7] rfl rfl rfl⟩

/-- C5: for every integer intensity input, `setIntensity` stores an
intensity in `[1, maxIntensity]` (with `maxIntensity ≥ 1` as the spec
data model guarantees): inputs below 1 clamp to 1, inputs above
`max_grade` clamp to `max_grade`, in-range inputs are kept, and no input
is rejected (the clamp is total and `set_intensity_local` always stores
it). -/
theorem set_intensity_clamp (g i : Int) (h : 1 ≤ g) :
    (1 ≤ clampIntensity g i ∧ clampIntensity g i ≤ g) ∧
    (i < 1 → clampIntensity g i = 1) ∧
    (g < i → clampIntensity g i = g) ∧
    (1 ≤ i → i ≤ g → clampIntensity g i = i) ∧
    (∀ c : Coordinator, c.info.max_grade = g →
      (set_intensity_local c i).state.intensity = clampIntensity g i) := by
  refine ⟨clamp_bounds g i h, fun h1 => ?_, fun h1 => ?_, fun h1 h2 => ?_,
    fun c hc => ?_⟩
  · unfold clampIntensity
    rw [max_eq_left]
    exact le_trans (min_le_left _ _) (by omega)
  · unfold clampIntensity
    rw [min_eq_right (le_of_lt h1), max_eq_right h]
  · unfold clampIntensity
    rw [min_eq_left h2, max_eq_right h1]
  · simp [set_intensity_local, hc]

/-- C5 witness: clamping 99 against the default max grade 5. -/
theorem set_intensity_clamp_witness :
    (1 ≤ clampIntensity 5 99 ∧ clampIntensity 5 99 ≤ 5) ∧
    clampIntensity 5 0 = 1 ∧
    clampIntensity 5 99 = 5 ∧
    (set_intensity_local Coordinator.init 99).state.intensity = clampIntensity 5 99 :=
  ⟨(set_intensity_clamp 5 99 (by decide)).1,
   (set_intensity_clamp 5 0 (by decide)).2.1 (by decide),
   (set_intensity_clamp 5 99 (by decide)).2.2.1 (by decide),
   (set_intensity_clamp 5 99 (by decide)).2.2.2.2 Coordinator.init rfl⟩

/-- C8: the idle-disconnect timer is armed by `_schedule_disconnect`
only when the device is OFF, and the timer callback
`_async_disconnect_if_idle` is a no-op whenever the device is ON at
fire time, whatever happened between arming and firing. -/
theorem idle_disconnect_power_check (s : Session) :
    ((schedule_disconnect s).timerArmed = true → s.coord.state.is_on = false) ∧
    (s.coord.state.is_on = true → disconnect_if_idle s = s) := by
  constructor
  · intro h
    cases hon : s.coord.state.is_on
    · rfl
    · exfalso
      rw [show schedule_disconnect s = { s with timerArmed := false } from by
        unfold schedule_disconnect; dsimp only; rw [if_pos hon]] at h
      exact Bool.false_ne_true h
  · intro h
    unfold disconnect_if_idle
    rw [if_pos h]

/-- C8 witness: the timer is armed while OFF, a power-on command runs in
between, and the late-firing callback leaves the (now ON) session
untouched and connected. -/
theorem idle_disconnect_power_check_witness :
    c8_armed.timerArmed = true ∧
    c8_fired_late.coord.state.is_on = true ∧
    c8_fired_late.connected = true ∧
    disconnect_if_idle c8_fired_late = c8_fired_late :=
  ⟨by decide, by decide, by decide,
   (idle_disconnect_power_check c8_fired_late).2 (by decide)⟩

/-- C3: every login response frame whose decoded string has length at
most 2 decodes to protocol version 2.0 with the oil, battery,
custom-intensity, multi-aroma and fan capability flags all false. -/
theorem login_short_response_v2 (pf : String → Option Rat) (data : List Nat)
    (respStr : String) (hlen : respStr.length ≤ 2) :
    (device_parse_login_response pf data respStr).2.blue_version = 2 ∧
    (device_parse_login_response pf data respStr).2.oil = false ∧
    (device_parse_login_response pf data respStr).2.battery = false ∧
    (device_parse_login_response pf data respStr).2.custom = false ∧
    (device_parse_login_response pf data respStr).2.many_aroma = false ∧
    (device_parse_login_response pf data respStr).2.fan = false := by
  have hne : respStr ≠ "ERROR" := by
    intro h
    subst h
    revert hlen
    decide
  unfold device_parse_login_response
  rw [if_neg hne, if_pos hlen]
  exact ⟨rfl, rfl, rfl, rfl, rfl, rfl⟩

/-- C3 witness: the two-character response "OK". -/
theorem login_short_response_v2_witness :
    (device_parse_login_response (fun _ => none) [] "OK").2.blue_version = 2 ∧
    (device_parse_login_response (fun _ => none) [] "OK").2.oil = false ∧
    (device_parse_login_response (fun _ => none) [] "OK").2.battery = false ∧
    (device_parse_login_response (fun _ => none) [] "OK").2.custom = false ∧
    (device_parse_login_response (fun _ => none) [] "OK").2.many_aroma = false ∧
    (device_parse_login_response (fun _ => none) [] "OK").2.fan = false :=
  login_short_response_v2 (fun _ => none) [] "OK" (by decide)

/-- C1 counterexample: the claim "every operation that writes
state.intensity leaves it within [1, info.max_grade]" fails on the
data-burst decode path: `_parse_schedule_v3` on a slot-1 frame whose
intensity byte is 0 stores intensity 0 while `max_grade` is the default
5; and `_parse_limits_response` accepts a limits frame whose max-grade
byte is 0, breaking "max_grade is always at least 1". -/
theorem intensity_invariant_counterexample :
    Coordinator.init.info.max_grade = 5 ∧
    (parse_schedule_v3 Coordinator.init c1_frame).state.intensity = 0 ∧
    ¬(1 ≤ (parse_schedule_v3 Coordinator.init c1_frame).state.intensity) ∧
    (parse_limits_response Coordinator.init
      [0x46, 0, 0, 0, 0, 0, 0, 0, 0, 0]).info.max_grade = 0 := by
  decide

/-- C1 (amended): the clamped-intensity invariant holds for the command
write paths: whenever the call-time `max_grade` is at least 1,
`set_intensity_local`, a successful `async_set_intensity` and a
successful `async_power_on` all leave `state.intensity` within
`[1, max_grade]`.  (The data-burst decode paths store the raw
device-reported intensity byte unclamped, and the limits frame may set
`max_grade` to any byte, including 0.) -/
theorem intensity_invariant_command_paths (env : LinkEnv) (s : Session)
    (i : Int) (io : Option Int) (h : 1 ≤ s.coord.info.max_grade) :
    (1 ≤ (set_intensity_local s.coord i).state.intensity ∧
      (set_intensity_local s.coord i).state.intensity ≤ s.coord.info.max_grade) ∧
    ((async_set_intensity env s i).1 = Except.ok () →
      1 ≤ (async_set_intensity env s i).2.coord.state.intensity ∧
      (async_set_intensity env s i).2.coord.state.intensity
        ≤ s.coord.info.max_grade) ∧
    ((async_power_on env s io).1 = Except.ok () →
      1 ≤ (async_power_on env s io).2.coord.state.intensity ∧
      (async_power_on env s io).2.coord.state.intensity
        ≤ s.coord.info.max_grade) := by
  refine ⟨?_, fun hok => ?_, fun hok => ?_⟩
  · exact clamp_bounds _ i h
  · have hok' : (execute_command env s
        (set_intensity_body env (clampIntensity s.coord.info.max_grade i))).1
          = Except.ok () := hok
    have h3 : (async_set_intensity env s i).2.coord.state.intensity
        = clampIntensity s.coord.info.max_grade i := by
      show (execute_command env s
        (set_intensity_body env (clampIntensity s.coord.info.max_grade i))).2.coord.state.intensity = _
      rw [execute_command_ok env s _ hok']
      rfl
    rw [h3]
    exact clamp_bounds _ i h
  · cases io with
    | none =>
      have hok' : (execute_command env s
          (power_on_body env (clampIntensity s.coord.info.max_grade
            (if s.coord.state.intensity = 0 then DEFAULT_INTENSITY
             else s.coord.state.intensity)))).1 = Except.ok () := hok
      have h3 : (async_power_on env s none).2.coord.state.intensity
          = clampIntensity s.coord.info.max_grade
              (if s.coord.state.intensity = 0 then DEFAULT_INTENSITY
               else s.coord.state.intensity) := by
        show (execute_command env s
          (power_on_body env (clampIntensity s.coord.info.max_grade
            (if s.coord.state.intensity = 0 then DEFAULT_INTENSITY
             else s.coord.state.intensity)))).2.coord.state.intensity = _
        rw [execute_command_ok env s _ hok']
        rfl
      rw [h3]
      exact clamp_bounds _ _ h
    | some j =>
      have hok' : (execute_command env s
          (power_on_body env (clampIntensity s.coord.info.max_grade j))).1
            = Except.ok () := hok
      have h3 : (async_power_on env s (some j)).2.coord.state.intensity
          = clampIntensity s.coord.info.max_grade j := by
        show (execute_command env s
          (power_on_body env (clampIntensity s.coord.info.max_grade j))).2.coord.state.intensity = _
        rw [execute_command_ok env s _ hok']
        rfl
      rw [h3]
      exact clamp_bounds _ _ h

/-- C1 (amended) witness: the command paths on the default state. -/
theorem intensity_invariant_command_paths_witness :
    (1 ≤ (set_intensity_local readySession.coord 99).state.intensity ∧
      (set_intensity_local readySession.coord 99).state.intensity
        ≤ readySession.coord.info.max_grade) ∧
    (1 ≤ (async_set_intensity envOK readySession 99).2.coord.state.intensity ∧
      (async_set_intensity envOK readySession 99).2.coord.state.intensity
        ≤ readySession.coord.info.max_grade) :=
  ⟨(intensity_invariant_command_paths envOK readySession 99 none (by decide)).1,
   (intensity_invariant_command_paths envOK readySession 99 none (by decide)).2.1
     rfl⟩

/-- C2 counterexample: a GATT write failure during `async_power_on` is
not surfaced: with a connected, logged-in session and a link whose GATT
writes fail, every write helper reports failure
(`write_command_no_response` returns False, `write_command` returns
empty bytes), yet the command completes successfully and records the
device as ON with the requested intensity. -/
theorem command_failure_surfacing_counterexample :
    envWriteFail.gatt.writeOk = false ∧
    write_command_no_response envWriteFail.gatt = false ∧
    write_command envWriteFail.gatt = [] ∧
    (async_power_on envWriteFail readySession (some 3)).1 = Except.ok () ∧
    (async_power_on envWriteFail readySession (some 3)).2.coord.state.is_on = true ∧
    (async_power_on envWriteFail readySession (some 3)).2.coord.state.intensity = 3 :=
  ⟨rfl, rfl, rfl, rfl, rfl, rfl⟩

/-- C2 (amended): a transport connect failure or a login rejection makes
the command fail with the fixed `UpdateFailed` message "Failed to
connect to device" (the underlying cause is only logged, not carried);
a GATT write failure inside the command body is not surfaced at all: the
write helpers return empty bytes / False, the command bodies discard
those results, and power-on / power-off / set-intensity complete as
successes. -/
theorem command_failure_surfacing (env : LinkEnv) (s : Session) (i : Int)
    (body : Coordinator → Coordinator) :
    (s.connected = false → env.connectOk = false →
      (execute_command env s body).1 = Except.error "Failed to connect to device") ∧
    (s.loggedIn = false → env.connectOk = true → env.loginOk = false →
      (execute_command env s body).1 = Except.error "Failed to connect to device") ∧
    (s.connected = true → s.loggedIn = true → env.gatt.writeOk = false →
      (async_power_on env s (some i)).1 = Except.ok () ∧
      (async_set_intensity env s i).1 = Except.ok () ∧
      (async_power_off env s).1 = Except.ok ()) := by
  refine ⟨fun hc he => ?_, fun hl hc hlo => ?_, fun hc hl _ => ?_⟩
  · unfold execute_command ensure_connected
    simp [hc, he]
  · unfold execute_command ensure_connected
    simp [hl, hc, hlo]
  · unfold async_power_on async_set_intensity async_power_off
    unfold execute_command ensure_connected
    simp [hc, hl]

/-- C2 (amended) witness: the three failure shapes at concrete
sessions and environments. -/
theorem command_failure_surfacing_witness :
    (execute_command envConnFail offlineSession id).1
      = Except.error "Failed to connect to device" ∧
    (execute_command envLoginFail offlineSession id).1
      = Except.error "Failed to connect to device" ∧
    (async_power_on envWriteFail readySession (some 3)).1 = Except.ok () :=
  ⟨(command_failure_surfacing envConnFail offlineSession 0 id).1 rfl rfl,
   (command_failure_surfacing envLoginFail offlineSession 0 id).2.1 rfl rfl rfl,
   ((command_failure_surfacing envWriteFail readySession 3 id).2.2 rfl rfl rfl).1⟩

/-- C4: in `_parse_schedule_v3`, the frame with slot index 1 (or the
first schedule frame seen, when the schedule list is still empty) sets
the current power flag, fan flag, intensity and active-schedule index
from the frame; every frame seen while the schedule list is non-empty
whose index is not 1 leaves those four fields unchanged and is only
appended to the schedule list. -/
theorem schedule_v3_index1_authority (c : Coordinator) (data : List Nat)
    (hlen : 14 ≤ data.length) :
    ((data.getD 5 0 = 1 ∨ c.state.schedules = []) →
      (parse_schedule_v3 c data).state.is_on = (data.getD 3 0).testBit 1 ∧
      (parse_schedule_v3 c data).state.fan_on = (data.getD 3 0).testBit 0 ∧
      (parse_schedule_v3 c data).state.intensity = (data.getD 13 0 : Int) ∧
      (parse_schedule_v3 c data).state.active_schedule = data.getD 4 0) ∧
    ((data.getD 5 0 ≠ 1 ∧ c.state.schedules ≠ []) →
      (parse_schedule_v3 c data).state.is_on = c.state.is_on ∧
      (parse_schedule_v3 c data).state.fan_on = c.state.fan_on ∧
      (parse_schedule_v3 c data).state.intensity = c.state.intensity ∧
      (parse_schedule_v3 c data).state.active_schedule = c.state.active_schedule ∧
      (parse_schedule_v3 c data).state.schedules
        = c.state.schedules ++ [scheduleOfV3 data]) := by
  have hnl : ¬ data.length < 14 := by omega
  have h13 : 13 < data.length := by omega
  have h4 : 4 < data.length := by omega
  constructor
  · intro hcond
    unfold parse_schedule_v3
    rw [if_neg hnl]
    dsimp only
    have hcond' : (scheduleOfV3 data).index = 1 ∨ c.state.schedules = [] := hcond
    rw [if_pos hcond']
    refine ⟨rfl, rfl, ?_, ?_⟩
    · show (scheduleOfV3 data).intensity = _
      unfold scheduleOfV3
      dsimp only
      rw [if_pos h13]
    · show (if 4 < data.length then data.getD 4 0 else 0) = _
      rw [if_pos h4]
  · intro hcond
    unfold parse_schedule_v3
    rw [if_neg hnl]
    dsimp only
    have hcond' : ¬ ((scheduleOfV3 data).index = 1 ∨ c.state.schedules = []) :=
      not_or.mpr ⟨hcond.1, hcond.2⟩
    rw [if_neg hcond']
    exact ⟨rfl, rfl, rfl, rfl, rfl⟩

/-- C4 witness: an index-1 frame sets the four fields; an index-2 frame
decoded while a schedule is already present leaves them unchanged and
appends. -/
theorem schedule_v3_index1_authority_witness :
    ((parse_schedule_v3 Coordinator.init c4_frame1).state.is_on
        = (c4_frame1.getD 3 0).testBit 1 ∧
      (parse_schedule_v3 Coordinator.init c4_frame1).state.fan_on
        = (c4_frame1.getD 3 0).testBit 0 ∧
      (parse_schedule_v3 Coordinator.init c4_frame1).state.intensity
        = (c4_frame1.getD 13 0 : Int) ∧
      (parse_schedule_v3 Coordinator.init c4_frame1).state.active_schedule
        = c4_frame1.getD 4 0) ∧
    ((parse_schedule_v3 c4_coord1 c4_frame2).state.is_on = c4_coord1.state.is_on ∧
      (parse_schedule_v3 c4_coord1 c4_frame2).state.fan_on = c4_coord1.state.fan_on ∧
      (parse_schedule_v3 c4_coord1 c4_frame2).state.intensity
        = c4_coord1.state.intensity ∧
      (parse_schedule_v3 c4_coord1 c4_frame2).state.active_schedule
        = c4_coord1.state.active_schedule ∧
      (parse_schedule_v3 c4_coord1 c4_frame2).state.schedules
        = c4_coord1.state.schedules ++ [scheduleOfV3 c4_frame2]) :=
  ⟨(schedule_v3_index1_authority Coordinator.init c4_frame1 (by decide)).1
      (Or.inl (by decide)),
   (schedule_v3_index1_authority c4_coord1 c4_frame2 (by decide)).2
      ⟨by decide, by decide⟩⟩

/-- Appending the next backoff delay extends the table prefix by one. -/
lemma backoff_take_succ (attempts : Nat) (h : attempts < 10) :
    backoffTable.take attempts
        ++ [min (RECONNECT_MIN_INTERVAL * 2 ^ (attempts + 1 - 1)) RECONNECT_MAX_INTERVAL]
      = backoffTable.take (attempts + 1) := by
  interval_cases attempts <;> decide

/-- C6 counterexample: the claimed 10-attempt cap and 5,10,20,40,60...
delay sequence fail on the code.  `_async_ensure_connected` resets
`_reconnect_attempts` to 0 as soon as the transport connection is
established, before login is attempted, so when every attempt connects
but is rejected at login (outcome `failAfterConn`) the counter returns
to 0 on every iteration: after 12 iterations the loop has already slept
12 delays (more than the claimed cap of 10), every one of them the
constant 5 seconds (where the claimed table has 20 at position 3), and
the loop is still running. -/
theorem reconnect_backoff_counterexample :
    (reconnectTrace loginBounceEnv 12).1 = List.replicate 12 5 ∧
    (reconnectTrace loginBounceEnv 12).2 = false ∧
    (reconnectTrace loginBounceEnv 12).1.length = 12 ∧
    RECONNECT_MAX_ATTEMPTS = 10 ∧
    (reconnectTrace loginBounceEnv 12).1.getD 2 0 = 5 ∧
    backoffTable.getD 2 0 = 20 := by
  decide

/-- A run of the reconnect loop in which no iteration reaches the
post-connect counter reset sleeps a prefix of the backoff table. -/
lemma reconnect_aux_isPrefix (env : Nat → ReconnectStep)
    (hnr : ∀ n, (env n).outcome ≠ AttemptOutcome.failAfterConn) :
    ∀ (fuel iter attempts : Nat) (acc : List Nat),
      acc = backoffTable.take attempts →
      (reconnect_loop_aux env fuel iter attempts acc).1 <+: backoffTable := by
  intro fuel
  induction fuel with
  | zero =>
    intro iter attempts acc hacc
    subst hacc
    exact ⟨backoffTable.drop attempts, List.take_append_drop _ _⟩
  | succ f ih =>
    intro iter attempts acc hacc
    rw [reconnect_loop_aux]
    dsimp only
    by_cases h1 : (env iter).isOnHead = true ∧ (env iter).shutHead = false
        ∧ attempts < RECONNECT_MAX_ATTEMPTS
    · rw [if_pos h1]
      have hacc' : acc
            ++ [min (RECONNECT_MIN_INTERVAL * 2 ^ (attempts + 1 - 1)) RECONNECT_MAX_INTERVAL]
          = backoffTable.take (attempts + 1) := by
        rw [hacc]
        exact backoff_take_succ attempts h1.2.2
      by_cases h2 : (!(env iter).isOnAfter || (env iter).shutAfter) = true
      · rw [if_pos h2]
        rw [hacc']
        exact ⟨backoffTable.drop (attempts + 1), List.take_append_drop _ _⟩
      · rw [if_neg h2]
        cases houtcome : (env iter).outcome with
        | success =>
          rw [hacc']
          exact ⟨backoffTable.drop (attempts + 1), List.take_append_drop _ _⟩
        | failNoConn =>
          exact ih (iter + 1) (attempts + 1) _ hacc'
        | failAfterConn =>
          exact absurd houtcome (hnr iter)
    · rw [if_neg h1]
      subst hacc
      exact ⟨backoffTable.drop attempts, List.take_append_drop _ _⟩

/-- C6 (amended): before each attempt the loop sleeps
`min(5 * 2 ^ (attempts - 1), 60)` seconds, where `attempts` is the
consecutive-failure counter, and the while head caps `attempts` at 10.
In every run in which no attempt reaches a successful transport connect
(so the counter reset at the top of `_async_ensure_connected` never
fires), the delays slept are a prefix of 5, 10, 20, 40, 60, 60, 60, 60,
60, 60 and there are at most 10 attempts; when all such attempts fail
the loop sleeps exactly that table and then exits for good (the same
exited trace for any larger fuel; only an external trigger starts a new
task).  An attempt whose transport connect succeeds but whose login is
rejected resets the counter instead, see the counterexample. -/
theorem reconnect_backoff (env : Nat → ReconnectStep) (fuel : Nat)
    (hnr : ∀ n, (env n).outcome ≠ AttemptOutcome.failAfterConn) :
    ((reconnectTrace env fuel).1 <+: backoffTable ∧
      (reconnectTrace env fuel).1.length ≤ RECONNECT_MAX_ATTEMPTS) ∧
    reconnectTrace connFailEnv 11 = (backoffTable, true) ∧
    reconnectTrace connFailEnv 100 = (backoffTable, true) ∧
    backoffTable = [5, 10, 20, 40, 60, 60, 60, 60, 60, 60] := by
  have hp : (reconnectTrace env fuel).1 <+: backoffTable :=
    reconnect_aux_isPrefix env hnr fuel 0 0 [] rfl
  refine ⟨⟨hp, ?_⟩, by decide, by decide, rfl⟩
  exact hp.length_le

/-- C6 (amended) witness: the no-transport-connect environment at fuel
7. -/
theorem reconnect_backoff_witness :
    (reconnectTrace connFailEnv 7).1 <+: backoffTable ∧
    (reconnectTrace connFailEnv 7).1.length ≤ RECONNECT_MAX_ATTEMPTS :=
  (reconnect_backoff connFailEnv 7 (fun _ h => AttemptOutcome.noConfusion h)).1

/-- C7 counterexample: data-burst decode is order-sensitive beyond the
oil-names/oil-amounts pair.  Swapping two V3 schedule frames (neither an
oil-names nor an oil-amounts frame, neither with index 1) changes the
decoded state: the first-seen frame sets power/fan/intensity/active
slot, so the intensities of the two orders differ. -/
theorem burst_order_only_oil_counterexample :
    c7_frame1.getD 0 0 ≠ RESP_OIL_NAMES_V3 ∧
    c7_frame1.getD 0 0 ≠ RESP_OIL_AMOUNTS_V3 ∧
    c7_frame2.getD 0 0 ≠ RESP_OIL_NAMES_V3 ∧
    c7_frame2.getD 0 0 ≠ RESP_OIL_AMOUNTS_V3 ∧
    (parse_data_burst Coordinator.init [c7_frame1, c7_frame2]).state.intensity = 7 ∧
    (parse_data_burst Coordinator.init [c7_frame2, c7_frame1]).state.intensity = 9 ∧
    parse_data_burst Coordinator.init [c7_frame1, c7_frame2]
      ≠ parse_data_burst Coordinator.init [c7_frame2, c7_frame1] := by
  decide

/-- Each oil produced by the `_parse_oil_amounts` loop carries the
positionally matching parsed name, or the synthesized "Oil N" when the
names list is too short. -/
lemma amounts_list_name :
    ∀ (k : Nat) (rest : List Nat) (idx : Nat) (names : List (List Nat)),
      k < (parse_oil_amounts_list rest idx names).length →
      ((parse_oil_amounts_list rest idx names).getD k ⟨[], 0, 0⟩).name
        = names.getD (idx + k) (strBytes ("Oil " ++ toString (idx + k + 1))) := by
  intro k
  induction k with
  | zero =>
    intro rest idx names h
    rcases rest with _ | ⟨a, _ | ⟨b, _ | ⟨c, _ | ⟨d, rest⟩⟩⟩⟩ <;>
      simp [parse_oil_amounts_list] at h ⊢
  | succ k ih =>
    intro rest idx names h
    rcases rest with _ | ⟨a, _ | ⟨b, _ | ⟨c, _ | ⟨d, rest⟩⟩⟩⟩
    · simp [parse_oil_amounts_list] at h
    · simp [parse_oil_amounts_list] at h
    · simp [parse_oil_amounts_list] at h
    · simp [parse_oil_amounts_list] at h
    · have h' : k < (parse_oil_amounts_list rest (idx + 1) names).length := by
        simpa [parse_oil_amounts_list] using h
      have hgoal := ih rest (idx + 1) names h'
      show ((parse_oil_amounts_list rest (idx + 1) names).getD k ⟨[], 0, 0⟩).name = _
      rw [hgoal, show idx + 1 + k = idx + (k + 1) by omega]

/-- The totals and remainders produced by the `_parse_oil_amounts` loop
do not depend on the names list. -/
lemma amounts_list_pairs :
    ∀ (n : Nat) (rest : List Nat), rest.length ≤ n →
      ∀ (idx : Nat) (names1 names2 : List (List Nat)),
        (parse_oil_amounts_list rest idx names1).map (fun o => (o.total, o.remainder))
          = (parse_oil_amounts_list rest idx names2).map
              (fun o => (o.total, o.remainder)) := by
  intro n
  induction n with
  | zero =>
    intro rest h idx names1 names2
    have : rest = [] := List.eq_nil_of_length_eq_zero (by omega)
    subst this
    rfl
  | succ n ih =>
    intro rest h idx names1 names2
    rcases rest with _ | ⟨a, _ | ⟨b, _ | ⟨c, _ | ⟨d, rest⟩⟩⟩⟩ <;>
      simp only [parse_oil_amounts_list, List.map]
    refine congrArg (List.cons _) ?_
    exact ih rest (by simp at h; omega) (idx + 1) names1 names2

/-- Decoding a burst of an oil-amounts frame followed by an oil-names
frame: the oils come from the amounts frame correlated with the empty
names list (the names frame arrives too late to matter). -/
lemma burst_amounts_first_oils (c : Coordinator) (namesRest amtRest : List Nat) :
    (parse_data_burst c
        [RESP_OIL_AMOUNTS_V3 :: amtRest, RESP_OIL_NAMES_V3 :: namesRest]).state.oils
      = if (RESP_OIL_AMOUNTS_V3 :: amtRest).length < 4 then []
        else parse_oil_amounts_list ((RESP_OIL_AMOUNTS_V3 :: amtRest).drop 2) 0 [] := by
  simp only [parse_data_burst, List.foldl, burstStep, parse_oil_amounts,
    RESP_BUFFER_CLEAR, RESP_LIMITS_V3, RESP_NAME_V3, RESP_PRODUCT_NAME,
    RESP_SCHEDULE_V3, RESP_DEVICE_LABEL_V3, RESP_INTENSITY_PRESETS,
    RESP_OIL_NAMES_V3, RESP_OIL_AMOUNTS_V3, RESP_VERSION_V3,
    RESP_IDENTIFIER, RESP_SCHEDULE_V2, RESP_OIL_V2, List.length_cons,
    List.getD_cons_zero]
  norm_num
  split <;> rfl

/-- Decoding a burst of an oil-names frame followed by an oil-amounts
frame: the oils come from the amounts frame correlated with the parsed
names. -/
lemma burst_names_first_oils (c : Coordinator) (namesRest amtRest : List Nat) :
    (parse_data_burst c
        [RESP_OIL_NAMES_V3 :: namesRest, RESP_OIL_AMOUNTS_V3 :: amtRest]).state.oils
      = if (RESP_OIL_AMOUNTS_V3 :: amtRest).length < 4 then []
        else parse_oil_amounts_list ((RESP_OIL_AMOUNTS_V3 :: amtRest).drop 2) 0
              (parse_oil_names (RESP_OIL_NAMES_V3 :: namesRest)) := by
  simp only [parse_data_burst, List.foldl, burstStep, parse_oil_amounts,
    RESP_BUFFER_CLEAR, RESP_LIMITS_V3, RESP_NAME_V3, RESP_PRODUCT_NAME,
    RESP_SCHEDULE_V3, RESP_DEVICE_LABEL_V3, RESP_INTENSITY_PRESETS,
    RESP_OIL_NAMES_V3, RESP_OIL_AMOUNTS_V3, RESP_VERSION_V3,
    RESP_IDENTIFIER, RESP_SCHEDULE_V2, RESP_OIL_V2, List.length_cons,
    List.getD_cons_zero]
  norm_num
  split <;> rfl

/-- C7 (amended): for the oil-names/oil-amounts pair the decode is
order-sensitive exactly as described: an amounts frame decoded before
any names frame yields oils with synthesized names "Oil N" (N the
1-based position); a names frame decoded first yields the positionally
parsed names (synthesized beyond their count); both orders decode
without error and agree on every total and remainder.  (Order
sensitivity is however not limited to this pair, see the
counterexample.) -/
theorem oil_names_amounts_order (c : Coordinator) (namesRest amtRest : List Nat) :
    (∀ k, k < ((parse_data_burst c
        [RESP_OIL_AMOUNTS_V3 :: amtRest, RESP_OIL_NAMES_V3 :: namesRest]).state.oils).length →
      (((parse_data_burst c
        [RESP_OIL_AMOUNTS_V3 :: amtRest, RESP_OIL_NAMES_V3 :: namesRest]).state.oils).getD k ⟨[], 0, 0⟩).name
        = strBytes ("Oil " ++ toString (k + 1))) ∧
    (∀ k, k < ((parse_data_burst c
        [RESP_OIL_NAMES_V3 :: namesRest, RESP_OIL_AMOUNTS_V3 :: amtRest]).state.oils).length →
      (((parse_data_burst c
        [RESP_OIL_NAMES_V3 :: namesRest, RESP_OIL_AMOUNTS_V3 :: amtRest]).state.oils).getD k ⟨[], 0, 0⟩).name
        = (parse_oil_names (RESP_OIL_NAMES_V3 :: namesRest)).getD k
            (strBytes ("Oil " ++ toString (k + 1)))) ∧
    ((parse_data_burst c
        [RESP_OIL_AMOUNTS_V3 :: amtRest, RESP_OIL_NAMES_V3 :: namesRest]).state.oils.map
          (fun o => (o.total, o.remainder))
      = (parse_data_burst c
        [RESP_OIL_NAMES_V3 :: namesRest, RESP_OIL_AMOUNTS_V3 :: amtRest]).state.oils.map
          (fun o => (o.total, o.remainder))) := by
  refine ⟨fun k hk => ?_, fun k hk => ?_, ?_⟩
  · rw [burst_amounts_first_oils] at hk ⊢
    by_cases hl : (RESP_OIL_AMOUNTS_V3 :: amtRest).length < 4
    · rw [if_pos hl] at hk
      simp at hk
    · rw [if_neg hl] at hk ⊢
      have h := amounts_list_name k ((RESP_OIL_AMOUNTS_V3 :: amtRest).drop 2) 0 [] hk
      simpa using h
  · rw [burst_names_first_oils] at hk ⊢
    by_cases hl : (RESP_OIL_AMOUNTS_V3 :: amtRest).length < 4
    · rw [if_pos hl] at hk
      simp at hk
    · rw [if_neg hl] at hk ⊢
      have h := amounts_list_name k ((RESP_OIL_AMOUNTS_V3 :: amtRest).drop 2) 0
        (parse_oil_names (RESP_OIL_NAMES_V3 :: namesRest)) hk
      simpa using h
  · rw [burst_amounts_first_oils, burst_names_first_oils]
    by_cases hl : (RESP_OIL_AMOUNTS_V3 :: amtRest).length < 4
    · rw [if_pos hl, if_pos hl]
    · rw [if_neg hl, if_neg hl]
      exact amounts_list_pairs ((RESP_OIL_AMOUNTS_V3 :: amtRest).drop 2).length _
        le_rfl 0 [] (parse_oil_names (RESP_OIL_NAMES_V3 :: namesRest))

/-- C7 (amended) witness: one oil (total 100, remainder 50) and the name
frame "Lavender"; amounts-first synthesizes "Oil 1", names-first keeps
"Lavender" (via the parsed-names list). -/
theorem oil_names_amounts_order_witness :
    ((((parse_data_burst Coordinator.init
        [RESP_OIL_AMOUNTS_V3 :: [90, 0, 100, 0, 50],
         RESP_OIL_NAMES_V3 :: (strBytes "Lavender" ++ List.replicate 8 0)]).state.oils).getD 0 ⟨[], 0, 0⟩).name
      = strBytes ("Oil " ++ toString (0 + 1))) ∧
    ((((parse_data_burst Coordinator.init
        [RESP_OIL_NAMES_V3 :: (strBytes "Lavender" ++ List.replicate 8 0),
         RESP_OIL_AMOUNTS_V3 :: [90, 0, 100, 0, 50]]).state.oils).getD 0 ⟨[], 0, 0⟩).name
      = (parse_oil_names (RESP_OIL_NAMES_V3 ::
          (strBytes "Lavender" ++ List.replicate 8 0))).getD 0
            (strBytes ("Oil " ++ toString (0 + 1)))) :=
  ⟨(oil_names_amounts_order Coordinator.init
      (strBytes "Lavender" ++ List.replicate 8 0) [90, 0, 100, 0, 50]).1 0 (by decide),
   (oil_names_amounts_order Coordinator.init
      (strBytes "Lavender" ++ List.replicate 8 0) [90, 0, 100, 0, 50]).2.1 0 (by decide)⟩
